import Mathlib

/-!
Shallow embedding of the nef mining-fleet system: the cloud hub in
src/server/index.ts (connection registry, status aggregation, threshold
alerting, command dispatch) and the edge gateway (command execution against
the H60S register map, cloud uplink reconnect loop).

Modelling conventions, stated once:
* Timestamps are natural numbers; every call that reads the clock takes the
  current time as an explicit `now` argument.
* Float-valued measurements and thresholds are integers; every property in
  scope compares them only by order against integer constants.
* The Redis store and the relational store are explicit fields of
  `CloudState`.  A Redis `hset` writes only the named fields of a hash and
  keeps the rest, so hash fields are `Option`-valued.
* Fallible external writes: the claims under study concern failures injected
  in the notification path, so each cloud entry point takes a flag `nf`
  meaning "the first notification-log write throws".  Every function returns
  `state × Bool`, the Bool being true when the call threw past its own body
  (a `catch` block that logs and rethrows propagates the flag; a `catch`
  that only logs clears it).  All other external writes succeed.
* JavaScript truthiness is modelled where the source relies on it: a numeric
  value is truthy iff it is present and nonzero.
-/

namespace Nef

/-- Device liveness status, source union type 'online' | 'offline' | 'error'. -/
inductive DevStat
  | online
  | offline
  | error
deriving DecidableEq

/-- Site liveness status, source union type 'online' | 'offline' | 'partial';
the last variant is named `mixed` because its source spelling is a reserved
word in Lean. -/
inductive SiteStat
  | online
  | offline
  | mixed
deriving DecidableEq

/-- Alert severity, source union type 'low' | 'medium' | 'high'. -/
inductive Severity
  | low
  | medium
  | high
deriving DecidableEq

/-- Redis hash stored at key site:S:device:D:status.  `hset` writes single
fields, so each field survives writes that do not name it. -/
structure DevHash where
  status : Option DevStat
  lastSeen : Option Nat
  lastError : Option Nat
  errorMessage : Option String
deriving DecidableEq

def emptyDevHash : DevHash :=
  { status := none, lastSeen := none, lastError := none, errorMessage := none }

/-- Redis hash stored at key site:S:status. -/
structure SiteHash where
  status : Option SiteStat
  lastUpdate : Option Nat
deriving DecidableEq

def emptySiteHash : SiteHash :=
  { status := none, lastUpdate := none }

/-- Per-device threshold set, the shape returned by getDeviceThresholds. -/
structure Thresholds where
  maxTemperature : Int
  minHashRate : Int
  maxPowerConsumption : Int
deriving DecidableEq

/-- Source getDefaultThresholds: hard-coded fallback threshold set. -/
def getDefaultThresholds (_deviceId : Nat) : Thresholds :=
  { maxTemperature := 85, minHashRate := 50, maxPowerConsumption := 3500 }

/-- Partial measurement set carried by a reading (interface DeviceReading.data). -/
structure ReadingData where
  hashRate : Option Int
  temperature : Option Int
  fanSpeed : Option Int
  powerConsumption : Option Int
  energyReading : Option Int
  heatMeterReading : Option Int
deriving DecidableEq

/-- Wire reading message payload (interface DeviceReading). -/
structure DeviceReading where
  deviceId : Nat
  siteId : String
  timestamp : Nat
  data : ReadingData
deriving DecidableEq

/-- Row of the DeviceReading table written by prisma.deviceReading.create. -/
structure ReadingRec where
  siteId : String
  deviceId : Nat
  timestamp : Nat
  data : ReadingData
deriving DecidableEq

/-- One entry of a status batch (interface DeviceStatus as received on the
wire; the stored lastSeen is overwritten with the processing time, so the
message lastSeen field is irrelevant to the code and omitted). -/
structure DeviceStatusMsg where
  deviceId : Nat
  status : DevStat
  errorMessage : Option String
deriving DecidableEq

/-- Wire error message payload (interface DeviceError; the open data record
is not inspected by the code paths in scope and is omitted). -/
structure DeviceError where
  deviceId : Nat
  errorType : String
  message : String
  timestamp : Nat
deriving DecidableEq

/-- Row of the DeviceError table written by prisma.deviceError.create. -/
structure DeviceErrorRec where
  siteId : String
  deviceId : Nat
  errorType : String
  message : String
  timestamp : Nat
deriving DecidableEq

/-- The alert object handed to generateAlert by its callers.  Different call
sites populate different fields, hence every field past the site is optional. -/
structure Alert where
  siteId : String
  deviceId : Option Nat
  type : String
  severity : Option Severity
  value : Option Int
  message : Option String
deriving DecidableEq

/-- Row of the NotificationLog table written inside sendNotifications. -/
structure NotifLog where
  siteId : String
  type : String
deriving DecidableEq

/-- Operator command (interface Command); parameters are carried opaquely. -/
structure Command where
  type : String
  deviceId : Nat
  siteId : String
  parameters : Option String
deriving DecidableEq

/-- Row of the CommandLog table; the schema defaults status to "sent". -/
structure CommandLog where
  siteId : String
  deviceId : Nat
  commandType : String
  parameters : Option String
  status : String
deriving DecidableEq

/-- Cloud-side state: the siteConnections map, the Redis hashes, the
relational tables touched by the functions in scope, the effective
threshold source, and the messages pushed to site channels. -/
structure CloudState where
  conns : String → Option Nat
  devHash : String → Nat → DevHash
  siteHash : String → SiteHash
  dbSiteStatus : String → Option (SiteStat × Nat)
  metrics : String → Nat → Option ReadingRec
  thresholds : Nat → Thresholds
  readings : List ReadingRec
  deviceErrors : List DeviceErrorRec
  alerts : List Alert
  notifLogs : List NotifLog
  commandLogs : List CommandLog
  sent : List (Nat × Command)

def initState : CloudState :=
  { conns := fun _ => none
    devHash := fun _ _ => emptyDevHash
    siteHash := fun _ => emptySiteHash
    dbSiteStatus := fun _ => none
    metrics := fun _ _ => none
    thresholds := getDefaultThresholds
    readings := []
    deviceErrors := []
    alerts := []
    notifLogs := []
    commandLogs := []
    sent := [] }

/-- Redis hset on a device-status hash: apply a field update at one key. -/
def hsetDev (st : CloudState) (sid : String) (d : Nat) (f : DevHash → DevHash) : CloudState :=
  { st with devHash := fun s dd => if s = sid ∧ dd = d then f (st.devHash s dd) else st.devHash s dd }

/-- Redis hset on a site-status hash (both fields are always written together). -/
def hsetSite (st : CloudState) (sid : String) (h : SiteHash) : CloudState :=
  { st with siteHash := fun s => if s = sid then h else st.siteHash s }

/-- prisma.site.update with the new status and lastSeen. -/
def dbUpdateSite (st : CloudState) (sid : String) (stat : SiteStat) (now : Nat) : CloudState :=
  { st with dbSiteStatus := fun s => if s = sid then some (stat, now) else st.dbSiteStatus s }

/-- Source handleSiteConnection, registration half: siteConnections.set
replaces whatever channel was registered for the site. -/
def handleSiteConnection (st : CloudState) (sid : String) (ch : Nat) : CloudState :=
  { st with conns := fun s => if s = sid then some ch else st.conns s }

/-- Source sendNotifications.  The call site passes the bare string 'sms' as
the types argument and the for-of loop iterates its characters, creating one
NotificationLog row per character; its catch block logs and rethrows.  The
`nf` flag makes the first row insert throw. -/
def sendNotifications (nf : Bool) (st : CloudState) (sid : String) (types : String)
    (_alert : Alert) : CloudState × Bool :=
  match nf with
  | true => (st, true)
  | false =>
    ({ st with notifLogs :=
        st.notifLogs ++ types.toList.map (fun c => { siteId := sid, type := Char.toString c }) },
     false)

/-- Source generateAlert: append the alert row (prisma.alert.create), then
sendNotifications with the literal 'sms'.  It has no catch, so a
notification failure propagates. -/
def generateAlert (nf : Bool) (st : CloudState) (sid : String) (a : Alert) : CloudState × Bool :=
  sendNotifications nf { st with alerts := st.alerts ++ [a] } sid "sms" a

/-- The alert object built in updateSiteStatus when a site goes offline. -/
def siteOfflineAlert (sid : String) : Alert :=
  { siteId := sid, deviceId := none, type := "site_offline",
    severity := some Severity.high, value := none,
    message := some ("Site " ++ sid ++ " went offline") }

/-- Source updateSiteStatus: write the Redis site hash, update the Site row,
and when the new status is offline raise a site_offline alert of severity
high.  Its catch logs and rethrows, so an alert-path failure propagates. -/
def updateSiteStatus (nf : Bool) (st : CloudState) (sid : String) (stat : SiteStat)
    (now : Nat) : CloudState × Bool :=
  let st1 := hsetSite st sid { status := some stat, lastUpdate := some now }
  let st2 := dbUpdateSite st1 sid stat now
  if stat = SiteStat.offline then generateAlert nf st2 sid (siteOfflineAlert sid)
  else (st2, false)

/-- Source handleSiteConnection, close half: the ws close callback captures
only site.id, deletes that key from siteConnections unconditionally, and
calls updateSiteStatus with 'offline'. -/
def onSiteClose (nf : Bool) (st : CloudState) (sid : String) (now : Nat) : CloudState × Bool :=
  let st1 := { st with conns := fun s => if s = sid then none else st.conns s }
  updateSiteStatus nf st1 sid SiteStat.offline now

/-- Dispatch failure condition raised by sendCommand. -/
inductive SendErr
  | siteNotConnected
deriving DecidableEq

/-- Source sendCommand: look up the channel in siteConnections; throw when
absent; otherwise push the command message on the channel and append a
CommandLog row (status defaulted to "sent" by the schema).  Transport and
persistence are assumed to succeed here; no claim in scope injects failures
on this path. -/
def sendCommand (st : CloudState) (sid : String) (cmd : Command) : CloudState × Option SendErr :=
  match st.conns sid with
  | none => (st, some SendErr.siteNotConnected)
  | some ch =>
    let st1 := { st with sent := st.sent ++ [(ch, cmd)] }
    let st2 := { st1 with commandLogs := st1.commandLogs ++
        [{ siteId := sid, deviceId := cmd.deviceId, commandType := cmd.type,
           parameters := cmd.parameters, status := "sent" }] }
    (st2, none)

/-- Source getErrorSeverity: severityMap lookup with default 'medium'. -/
def getErrorSeverity (errorType : String) : Severity :=
  if errorType = "hardware_failure" then Severity.high
  else if errorType = "connection_lost" then Severity.medium
  else if errorType = "performance_degraded" then Severity.low
  else Severity.medium

/-- Source processDeviceError: append the DeviceError row, hset the device
hash to status 'error' with lastError := the event timestamp and
errorMessage := the event message (lastSeen is not among the written
fields), then raise a device_error alert with looked-up severity.  Its
catch logs and rethrows. -/
def processDeviceError (nf : Bool) (st : CloudState) (sid : String) (e : DeviceError) :
    CloudState × Bool :=
  let st1 := { st with deviceErrors := st.deviceErrors ++
      [{ siteId := sid, deviceId := e.deviceId, errorType := e.errorType,
         message := e.message, timestamp := e.timestamp }] }
  let st2 := hsetDev st1 sid e.deviceId (fun h =>
    { h with status := some DevStat.error, lastError := some e.timestamp,
             errorMessage := some e.message })
  generateAlert nf st2 sid
    { siteId := sid, deviceId := some e.deviceId, type := "device_error",
      severity := some (getErrorSeverity e.errorType), value := none,
      message := some e.message }

/-- The alert object built in checkThresholds for a high temperature. -/
def hiTempAlert (sid : String) (deviceId : Nat) (t : Int) : Alert :=
  { siteId := sid, deviceId := some deviceId, type := "high_temperature",
    severity := none, value := some t, message := none }

/-- Source checkThresholds: the guard is the truthiness conjunction
`reading.data.temperature && reading.data.temperature > thresholds.maxTemperature`,
so an absent or zero temperature never alerts.  The effective threshold set
(Redis cache, then stored configuration, then getDefaultThresholds) is the
`thresholds` field of the state. -/
def checkThresholds (nf : Bool) (st : CloudState) (sid : String) (r : DeviceReading) :
    CloudState × Bool :=
  match r.data.temperature with
  | some t =>
    if t ≠ 0 ∧ t > (st.thresholds r.deviceId).maxTemperature then
      generateAlert nf st sid (hiTempAlert sid r.deviceId t)
    else (st, false)
  | none => (st, false)

/-- Redis hset on a lastReading metrics hash. -/
def hsetMetrics (st : CloudState) (sid : String) (d : Nat) (v : Option ReadingRec) : CloudState :=
  { st with metrics := fun s dd => if s = sid ∧ dd = d then v else st.metrics s dd }

/-- Source updateMetrics: hset the lastReading metrics hash, then
checkThresholds. -/
def updateMetrics (nf : Bool) (st : CloudState) (sid : String) (r : DeviceReading) :
    CloudState × Bool :=
  let st1 := hsetMetrics st sid r.deviceId
    (some (ReadingRec.mk sid r.deviceId r.timestamp r.data))
  checkThresholds nf st1 sid r

/-- Source processDeviceReading: append the reading row, then updateMetrics;
its catch only logs, so the call never throws and keeps the state reached
at the point of any failure. -/
def processDeviceReading (nf : Bool) (st : CloudState) (sid : String) (r : DeviceReading) :
    CloudState × Bool :=
  let st1 := { st with readings := st.readings ++
      [{ siteId := sid, deviceId := r.deviceId, timestamp := r.timestamp, data := r.data }] }
  let p := updateMetrics nf st1 sid r
  (p.1, false)

/-- The alert object built inside the processDeviceStatuses loop for a batch
entry whose status is 'error' (severity is the literal 'medium' there). -/
def devErrAlert (sid : String) (m : DeviceStatusMsg) : Alert :=
  { siteId := sid, deviceId := some m.deviceId, type := "device_error",
    severity := some Severity.medium, value := none, message := m.errorMessage }

/-- The hset performed for one batch entry: status, lastSeen := the batch
processing time, errorMessage := the message field or ''. -/
def writeDevStatusMsg (st : CloudState) (sid : String) (now : Nat) (m : DeviceStatusMsg) :
    CloudState :=
  hsetDev st sid m.deviceId (fun h =>
    { h with status := some m.status, lastSeen := some now,
             errorMessage := some (m.errorMessage.getD "") })

/-- The for-of loop of processDeviceStatuses: write each entry, raising a
device_error alert for entries with status 'error'; an alert-path failure
aborts the loop and propagates. -/
def processBatchLoop (nf : Bool) (sid : String) (now : Nat) :
    CloudState → List DeviceStatusMsg → CloudState × Bool
  | st, [] => (st, false)
  | st, m :: rest =>
    let st1 := writeDevStatusMsg st sid now m
    if m.status = DevStat.error then
      let p := generateAlert nf st1 sid (devErrAlert sid m)
      if p.2 then (p.1, true) else processBatchLoop nf sid now p.1 rest
    else
      processBatchLoop nf sid now st1 rest

/-- The site-status derivation of processDeviceStatuses: read back the stored
hash of every batch entry and apply the two every-comparisons. -/
def batchSiteStatus (st : CloudState) (sid : String) (batch : List DeviceStatusMsg) : SiteStat :=
  let all := batch.map (fun m => (st.devHash sid m.deviceId).status)
  if all.all (fun s => decide (s = some DevStat.online)) then SiteStat.online
  else if all.all (fun s => decide (s = some DevStat.offline)) then SiteStat.offline
  else SiteStat.mixed

/-- Source processDeviceStatuses: run the loop, then derive and persist the
site status; its catch logs and rethrows. -/
def processDeviceStatuses (nf : Bool) (st : CloudState) (sid : String) (now : Nat)
    (batch : List DeviceStatusMsg) : CloudState × Bool :=
  let p := processBatchLoop nf sid now st batch
  if p.2 then (p.1, true)
  else updateSiteStatus nf p.1 sid (batchSiteStatus p.1 sid batch) now

/-! ## Edge gateway (RUT955 application) -/

/-- H60S control-board register addresses used by handleCommand. -/
def H60S_FREQUENCY_SET : Nat := 2001

def H60S_FAN_SPEED_SET : Nat := 2002

def H60S_RESTART_CMD : Nat := 2004

def H60S_SHUTDOWN_CMD : Nat := 2005

/-- Device ids of the local configuration: control boards 1 and 2, energy
meter 10, heat meter 20. -/
def configDeviceIds : List Nat := [1, 2, 10, 20]

/-- Payload of an inbound command message (the data field of WSMessage). -/
structure EdgeCommandData where
  action : String
  frequency : Option Int
  fanSpeed : Option Int
deriving DecidableEq

/-- Inbound command message as consumed by handleCommand. -/
structure EdgeCommandMsg where
  deviceId : Nat
  data : EdgeCommandData
deriving DecidableEq

/-- Edge-side failure conditions raised inside handleCommand. -/
inductive EdgeErr
  | deviceNotFound (deviceId : Nat)
  | unsupportedOperation (action : String)
deriving DecidableEq

/-- Events emitted by handleCommand on the local event bus. -/
inductive EdgeEvent
  | commandComplete (deviceId : Nat) (data : EdgeCommandData)
  | commandError (deviceId : Nat) (data : EdgeCommandData) (err : EdgeErr)
deriving DecidableEq

/-- Observable outcome of one handleCommand call: the register writes
performed (address, value), the events emitted, and the error thrown past
the call, if any. -/
structure EdgeResult where
  regWrites : List (Nat × Int)
  events : List EdgeEvent
  thrown : Option EdgeErr
deriving DecidableEq

/-- Conditional register write of the updateConfig branch: the source guards
each write with the truthiness of the parameter, so an absent or zero
parameter writes nothing. -/
def truthyWrite (reg : Nat) (v : Option Int) : List (Nat × Int) :=
  match v with
  | some x => if x ≠ 0 then [(reg, x)] else []
  | none => []

/-- The switch on data.action inside handleCommand; the default case throws
the unknown-command error. -/
def execSwitch (d : EdgeCommandData) : Except EdgeErr (List (Nat × Int)) :=
  if d.action = "restart" then Except.ok [(H60S_RESTART_CMD, 1)]
  else if d.action = "updateConfig" then
    Except.ok (truthyWrite H60S_FREQUENCY_SET d.frequency ++
               truthyWrite H60S_FAN_SPEED_SET d.fanSpeed)
  else if d.action = "shutdown" then Except.ok [(H60S_SHUTDOWN_CMD, 1)]
  else Except.error (EdgeErr.unsupportedOperation d.action)

/-- Source handleCommand: an unknown device id throws before the try block,
so that error propagates with no write and no event; inside the try block a
successful switch emits commandComplete, and any error (including the
unknown-action throw) is caught and emitted as a commandError event.
Connection and register writes themselves are assumed to succeed; no claim
in scope injects transport failures here. -/
def handleCommand (cmd : EdgeCommandMsg) : EdgeResult :=
  if cmd.deviceId ∈ configDeviceIds then
    match execSwitch cmd.data with
    | Except.ok ws =>
      { regWrites := ws, events := [EdgeEvent.commandComplete cmd.deviceId cmd.data], thrown := none }
    | Except.error e =>
      { regWrites := [], events := [EdgeEvent.commandError cmd.deviceId cmd.data e], thrown := none }
  else
    { regWrites := [], events := [], thrown := some (EdgeErr.deviceNotFound cmd.deviceId) }

/-! ## Edge uplink reconnect loop -/

/-- The literal backoff of setTimeout(setupCloudConnection, 5000). -/
def RECONNECT_DELAY_MS : Nat := 5000

/-- Observable uplink history: how many times setupCloudConnection has run
(connection attempts) and the delays of the reconnects scheduled so far. -/
structure UplinkState where
  connectAttempts : Nat
  scheduledDelays : List Nat
deriving DecidableEq

/-- Source setupCloudConnection: opens a socket (one connection attempt) and
installs the message, close and error handlers. -/
def setupCloudConnection (s : UplinkState) : UplinkState :=
  { s with connectAttempts := s.connectAttempts + 1 }

/-- The ws close handler: unconditionally schedule setupCloudConnection
after the fixed delay; there is no retry counter and no stop condition. -/
def onUplinkClose (s : UplinkState) : UplinkState :=
  { s with scheduledDelays := s.scheduledDelays ++ [RECONNECT_DELAY_MS] }

/-- The scheduled timer firing: it runs setupCloudConnection, which installs
a fresh close handler, so the loop is self-sustaining. -/
def fireScheduledReconnect (s : UplinkState) : UplinkState :=
  setupCloudConnection s

/-- One disconnect followed by its scheduled reconnect attempt. -/
def disconnectRound (s : UplinkState) : UplinkState :=
  fireScheduledReconnect (onUplinkClose s)

/-- N consecutive disconnects, each followed by its reconnect attempt. -/
def runDisconnects : Nat → UplinkState → UplinkState
  | 0, s => s
  | Nat.succ n, s => runDisconnects n (disconnectRound s)

/-! ## Helper lemmas about the alert path -/

theorem generateAlert_snd (nf : Bool) (st : CloudState) (sid : String) (a : Alert) :
    (generateAlert nf st sid a).2 = nf := by
  cases nf <;> rfl

theorem generateAlert_alerts (nf : Bool) (st : CloudState) (sid : String) (a : Alert) :
    (generateAlert nf st sid a).1.alerts = st.alerts ++ [a] := by
  cases nf <;> rfl

theorem generateAlert_devHash (nf : Bool) (st : CloudState) (sid : String) (a : Alert) :
    (generateAlert nf st sid a).1.devHash = st.devHash := by
  cases nf <;> rfl

theorem generateAlert_siteHash (nf : Bool) (st : CloudState) (sid : String) (a : Alert) :
    (generateAlert nf st sid a).1.siteHash = st.siteHash := by
  cases nf <;> rfl

theorem generateAlert_conns (nf : Bool) (st : CloudState) (sid : String) (a : Alert) :
    (generateAlert nf st sid a).1.conns = st.conns := by
  cases nf <;> rfl

theorem generateAlert_readings (nf : Bool) (st : CloudState) (sid : String) (a : Alert) :
    (generateAlert nf st sid a).1.readings = st.readings := by
  cases nf <;> rfl

theorem generateAlert_deviceErrors (nf : Bool) (st : CloudState) (sid : String) (a : Alert) :
    (generateAlert nf st sid a).1.deviceErrors = st.deviceErrors := by
  cases nf <;> rfl

theorem hsetDev_self (st : CloudState) (sid : String) (d : Nat) (f : DevHash → DevHash) :
    (hsetDev st sid d f).devHash sid d = f (st.devHash sid d) := by
  simp [hsetDev]

theorem hsetDev_ne (st : CloudState) (sid : String) (d : Nat) (f : DevHash → DevHash)
    (s : String) (dd : Nat) (h : ¬(s = sid ∧ dd = d)) :
    (hsetDev st sid d f).devHash s dd = st.devHash s dd := by
  simp only [hsetDev]
  rw [if_neg h]

theorem writeDevStatusMsg_status_self (st : CloudState) (sid : String) (now : Nat)
    (m : DeviceStatusMsg) :
    ((writeDevStatusMsg st sid now m).devHash sid m.deviceId).status = some m.status := by
  unfold writeDevStatusMsg
  rw [hsetDev_self]

theorem writeDevStatusMsg_devHash_ne (st : CloudState) (sid : String) (now : Nat)
    (m : DeviceStatusMsg) (s : String) (dd : Nat) (h : dd ≠ m.deviceId) :
    (writeDevStatusMsg st sid now m).devHash s dd = st.devHash s dd := by
  unfold writeDevStatusMsg
  exact hsetDev_ne _ _ _ _ _ _ (fun hc => h hc.2)

/-- One step of the batch loop with no injected failure never aborts early,
so the loop is the fold of its per-entry state update. -/
theorem processBatchLoop_false_cons (sid : String) (now : Nat) (st : CloudState)
    (m : DeviceStatusMsg) (rest : List DeviceStatusMsg) :
    processBatchLoop false sid now st (m :: rest) =
      processBatchLoop false sid now
        (if m.status = DevStat.error
         then (generateAlert false (writeDevStatusMsg st sid now m) sid (devErrAlert sid m)).1
         else writeDevStatusMsg st sid now m) rest := by
  by_cases hs : m.status = DevStat.error
  · simp [processBatchLoop, hs, generateAlert_snd]
  · simp [processBatchLoop, hs]

theorem processBatchLoop_false_snd (sid : String) (now : Nat) :
    ∀ (l : List DeviceStatusMsg) (st : CloudState),
      (processBatchLoop false sid now st l).2 = false := by
  intro l
  induction l with
  | nil => intro st; rfl
  | cons m rest ih =>
    intro st
    rw [processBatchLoop_false_cons]
    exact ih _

theorem processBatchLoop_false_devHash_of_notmem (sid : String) (now : Nat) :
    ∀ (l : List DeviceStatusMsg) (st : CloudState) (s : String) (d : Nat),
      d ∉ l.map (fun m => m.deviceId) →
      (processBatchLoop false sid now st l).1.devHash s d = st.devHash s d := by
  intro l
  induction l with
  | nil => intro st s d _; rfl
  | cons m rest ih =>
    intro st s d hd
    rw [List.map_cons, List.mem_cons, not_or] at hd
    obtain ⟨hd1, hd2⟩ := hd
    rw [processBatchLoop_false_cons, ih _ s d hd2]
    by_cases hs : m.status = DevStat.error
    · rw [if_pos hs, generateAlert_devHash, writeDevStatusMsg_devHash_ne _ _ _ _ _ _ hd1]
    · rw [if_neg hs, writeDevStatusMsg_devHash_ne _ _ _ _ _ _ hd1]

/-- After the loop, for a batch of distinct device ids, every entry reads
back exactly the status it carried. -/
theorem processBatchLoop_false_status (sid : String) (now : Nat) :
    ∀ (l : List DeviceStatusMsg) (st : CloudState),
      (l.map (fun m => m.deviceId)).Nodup →
      ∀ m ∈ l,
        ((processBatchLoop false sid now st l).1.devHash sid m.deviceId).status = some m.status := by
  intro l
  induction l with
  | nil => intro st _ m hm; cases hm
  | cons m0 rest ih =>
    intro st hnd m hm
    rw [List.map_cons, List.nodup_cons] at hnd
    obtain ⟨h0, hndr⟩ := hnd
    rw [processBatchLoop_false_cons]
    rcases List.mem_cons.mp hm with hm0 | hmr
    · subst hm0
      rw [processBatchLoop_false_devHash_of_notmem sid now rest _ sid m.deviceId h0]
      by_cases hs : m.status = DevStat.error
      · rw [if_pos hs, generateAlert_devHash, writeDevStatusMsg_status_self]
      · rw [if_neg hs, writeDevStatusMsg_status_self]
    · exact ih _ hndr m hmr

theorem updateSiteStatus_siteHash_self (nf : Bool) (st : CloudState) (sid : String)
    (stat : SiteStat) (now : Nat) :
    (updateSiteStatus nf st sid stat now).1.siteHash sid
      = { status := some stat, lastUpdate := some now } := by
  by_cases h : stat = SiteStat.offline <;>
    simp [updateSiteStatus, h, generateAlert_siteHash, dbUpdateSite, hsetSite]

/-- The two every-checks of the site-status derivation, evaluated on a store
where every batch entry reads back its own status, reduce to checks on the
batch itself. -/
theorem batchSiteStatus_eq (st : CloudState) (sid : String) (batch : List DeviceStatusMsg)
    (h : ∀ m ∈ batch, (st.devHash sid m.deviceId).status = some m.status) :
    batchSiteStatus st sid batch =
      (if batch.all (fun m => decide (m.status = DevStat.online)) then SiteStat.online
       else if batch.all (fun m => decide (m.status = DevStat.offline)) then SiteStat.offline
       else SiteStat.mixed) := by
  unfold batchSiteStatus
  rw [List.map_congr_left h]
  simp [List.all_map, Function.comp]

/-! ## Claim C1 -/

/-- Claim C1 (amended): for every status batch over distinct device ids, the
site status derived and persisted by processDeviceStatuses is online iff
every batch entry is online, else offline iff every batch entry is offline,
else mixed (the source value for disagreement); because the two
every-checks are vacuously true on an empty batch, the empty batch derives
online — not offline as the original claim states for a site with zero
known devices. -/
theorem c1_batch_site_status (st : CloudState) (sid : String) (now : Nat)
    (batch : List DeviceStatusMsg)
    (hnd : (batch.map (fun m => m.deviceId)).Nodup) :
    (((processDeviceStatuses false st sid now batch).1.siteHash sid).status =
      some (if batch.all (fun m => decide (m.status = DevStat.online)) then SiteStat.online
            else if batch.all (fun m => decide (m.status = DevStat.offline)) then SiteStat.offline
            else SiteStat.mixed))
  ∧ (((processDeviceStatuses false st sid now []).1.siteHash sid).status = some SiteStat.online) := by
  constructor
  · have hsnd := processBatchLoop_false_snd sid now batch st
    simp only [processDeviceStatuses, hsnd, Bool.false_eq_true, if_false]
    rw [updateSiteStatus_siteHash_self]
    rw [batchSiteStatus_eq _ _ _ (processBatchLoop_false_status sid now batch st hnd)]
  · simp only [processDeviceStatuses, processBatchLoop, Bool.false_eq_true, if_false]
    rw [updateSiteStatus_siteHash_self]
    simp [batchSiteStatus]

/-- Claim C1 witness: the spec scenario, one online and one offline device,
derives the disagreement status; the empty batch derives online. -/
theorem c1_batch_site_status_witness :
    (([DeviceStatusMsg.mk 1 DevStat.online none,
       DeviceStatusMsg.mk 2 DevStat.offline none].map (fun m => m.deviceId)).Nodup)
  ∧ ((((processDeviceStatuses false initState "s" 0
        [DeviceStatusMsg.mk 1 DevStat.online none,
         DeviceStatusMsg.mk 2 DevStat.offline none]).1.siteHash "s").status =
      some (if [DeviceStatusMsg.mk 1 DevStat.online none,
                DeviceStatusMsg.mk 2 DevStat.offline none].all
                  (fun m => decide (m.status = DevStat.online)) then SiteStat.online
            else if [DeviceStatusMsg.mk 1 DevStat.online none,
                     DeviceStatusMsg.mk 2 DevStat.offline none].all
                  (fun m => decide (m.status = DevStat.offline)) then SiteStat.offline
            else SiteStat.mixed))
  ∧ (((processDeviceStatuses false initState "s" 0 []).1.siteHash "s").status
      = some SiteStat.online)) :=
  ⟨by decide,
   c1_batch_site_status initState "s" 0
     [DeviceStatusMsg.mk 1 DevStat.online none, DeviceStatusMsg.mk 2 DevStat.offline none]
     (by decide)⟩

/-- Claim C1 counterexample: an empty status batch derives site status
online, because both every-checks hold vacuously, where the claim requires
offline for a site with zero known devices. -/
theorem c1_empty_batch_counterexample :
    ((((processDeviceStatuses false initState "s" 0 []).1.siteHash "s").status
      = some SiteStat.online))
  ∧ (some SiteStat.online ≠ some SiteStat.offline) := by
  constructor <;> decide

/-! ## Claim C2 -/

/-- Claim C2 (amended): for every device, every prior status and every error
type, processing an error event sets the device status to error with the
error message recorded and writes the event timestamp into the lastError
field, leaving the lastSeen field untouched (the claim says last-seen is
set to now; the code never writes lastSeen on this path); it appends the
DeviceError row and raises exactly one device_error alert whose severity is
getErrorSeverity of the event's error type — a lookup mapping
hardware_failure to high, connection_lost to medium, performance_degraded
to low, and every other error type (any `t` outside the map) to the
default medium. -/
theorem c2_process_device_error (st : CloudState) (sid : String) (e : DeviceError)
    (t : String) (ht : t ∉ ["hardware_failure", "connection_lost", "performance_degraded"]) :
    (((processDeviceError false st sid e).1.devHash sid e.deviceId).status = some DevStat.error)
  ∧ (((processDeviceError false st sid e).1.devHash sid e.deviceId).errorMessage = some e.message)
  ∧ (((processDeviceError false st sid e).1.devHash sid e.deviceId).lastError = some e.timestamp)
  ∧ (((processDeviceError false st sid e).1.devHash sid e.deviceId).lastSeen
      = (st.devHash sid e.deviceId).lastSeen)
  ∧ ((processDeviceError false st sid e).1.alerts = st.alerts ++
      [Alert.mk sid (some e.deviceId) "device_error"
        (some (getErrorSeverity e.errorType)) none (some e.message)])
  ∧ ((processDeviceError false st sid e).1.deviceErrors = st.deviceErrors ++
      [DeviceErrorRec.mk sid e.deviceId e.errorType e.message e.timestamp])
  ∧ ((processDeviceError false st sid e).2 = false)
  ∧ (getErrorSeverity "hardware_failure" = Severity.high)
  ∧ (getErrorSeverity "connection_lost" = Severity.medium)
  ∧ (getErrorSeverity "performance_degraded" = Severity.low)
  ∧ (getErrorSeverity t = Severity.medium) := by
  simp only [List.mem_cons, List.not_mem_nil, or_false, not_or] at ht
  obtain ⟨ht1, ht2, ht3⟩ := ht
  refine ⟨?_, ?_, ?_, ?_, ?_, ?_, ?_, rfl, rfl, rfl, ?_⟩
  · simp only [processDeviceError, generateAlert_devHash]
    rw [hsetDev_self]
  · simp only [processDeviceError, generateAlert_devHash]
    rw [hsetDev_self]
  · simp only [processDeviceError, generateAlert_devHash]
    rw [hsetDev_self]
  · simp only [processDeviceError, generateAlert_devHash]
    rw [hsetDev_self]
  · simp only [processDeviceError, generateAlert_alerts]
    rfl
  · simp only [processDeviceError, generateAlert_deviceErrors]
    rfl
  · simp only [processDeviceError, generateAlert_snd]
  · simp [getErrorSeverity, ht1, ht2, ht3]

/-- Claim C2 witness: an error of the mapped type hardware_failure against a
state whose device hash has a prior lastSeen of 5 — the raised alert
carries severity high from the lookup while lastSeen stays 5 — and the
default clause discharged at the unmapped type thermal_runaway. -/
theorem c2_process_device_error_witness :
    ("thermal_runaway" ∉ ["hardware_failure", "connection_lost", "performance_degraded"])
  ∧ ((((processDeviceError false (hsetDev initState "s" 1 (fun h => { h with lastSeen := some 5 })) "s" (DeviceError.mk 1 "hardware_failure" "fried" 40)).1.devHash "s" 1).status = some DevStat.error)
  ∧ (((processDeviceError false (hsetDev initState "s" 1 (fun h => { h with lastSeen := some 5 })) "s" (DeviceError.mk 1 "hardware_failure" "fried" 40)).1.devHash "s" 1).errorMessage = some "fried")
  ∧ (((processDeviceError false (hsetDev initState "s" 1 (fun h => { h with lastSeen := some 5 })) "s" (DeviceError.mk 1 "hardware_failure" "fried" 40)).1.devHash "s" 1).lastError = some 40)
  ∧ (((processDeviceError false (hsetDev initState "s" 1 (fun h => { h with lastSeen := some 5 })) "s" (DeviceError.mk 1 "hardware_failure" "fried" 40)).1.devHash "s" 1).lastSeen
      = ((hsetDev initState "s" 1 (fun h => { h with lastSeen := some 5 })).devHash "s" 1).lastSeen)
  ∧ ((processDeviceError false (hsetDev initState "s" 1 (fun h => { h with lastSeen := some 5 })) "s" (DeviceError.mk 1 "hardware_failure" "fried" 40)).1.alerts
      = (hsetDev initState "s" 1 (fun h => { h with lastSeen := some 5 })).alerts ++
        [Alert.mk "s" (some 1) "device_error" (some (getErrorSeverity "hardware_failure")) none (some "fried")])
  ∧ ((processDeviceError false (hsetDev initState "s" 1 (fun h => { h with lastSeen := some 5 })) "s" (DeviceError.mk 1 "hardware_failure" "fried" 40)).1.deviceErrors
      = (hsetDev initState "s" 1 (fun h => { h with lastSeen := some 5 })).deviceErrors ++
        [DeviceErrorRec.mk "s" 1 "hardware_failure" "fried" 40])
  ∧ ((processDeviceError false (hsetDev initState "s" 1 (fun h => { h with lastSeen := some 5 })) "s" (DeviceError.mk 1 "hardware_failure" "fried" 40)).2 = false)
  ∧ (getErrorSeverity "hardware_failure" = Severity.high)
  ∧ (getErrorSeverity "connection_lost" = Severity.medium)
  ∧ (getErrorSeverity "performance_degraded" = Severity.low)
  ∧ (getErrorSeverity "thermal_runaway" = Severity.medium)) :=
  ⟨by decide,
   c2_process_device_error (hsetDev initState "s" 1 (fun h => { h with lastSeen := some 5 })) "s"
     (DeviceError.mk 1 "hardware_failure" "fried" 40) "thermal_runaway" (by decide)⟩

/-- Claim C2 counterexample: from the initial state, where the device hash
has no lastSeen at all, processing an error leaves lastSeen absent (the
hset on this path writes status, lastError and errorMessage only), so the
device last-seen is not set to the processing time as the claim requires;
the event timestamp lands in lastError instead. -/
theorem c2_last_seen_counterexample :
    (((processDeviceError false initState "s" (DeviceError.mk 1 "connection_lost" "boom" 99)).1.devHash "s" 1).lastSeen = none)
  ∧ (((processDeviceError false initState "s" (DeviceError.mk 1 "connection_lost" "boom" 99)).1.devHash "s" 1).status = some DevStat.error)
  ∧ (((processDeviceError false initState "s" (DeviceError.mk 1 "connection_lost" "boom" 99)).1.devHash "s" 1).lastError = some 99) := by
  refine ⟨?_, ?_, ?_⟩ <;> decide

/-! ## Claim C4 -/

/-- Claim C4 (amended): a reading carrying a nonzero temperature strictly
above the effective max-temperature threshold produces exactly one
high_temperature alert carrying the measured value; a reading whose
temperature is at or below the threshold, or absent, produces none.  (The
original claim also covers a zero temperature above a negative threshold,
where the truthiness guard suppresses the alert — see the counterexample.) -/
theorem c4_high_temperature_alert (st : CloudState) (sid : String)
    (r1 r2 r3 : DeviceReading) (t1 t2 : Int)
    (h1t : r1.data.temperature = some t1) (h1nz : t1 ≠ 0)
    (h1gt : t1 > (st.thresholds r1.deviceId).maxTemperature)
    (h2t : r2.data.temperature = some t2)
    (h2le : t2 ≤ (st.thresholds r2.deviceId).maxTemperature)
    (h3t : r3.data.temperature = none) :
    ((checkThresholds false st sid r1).1.alerts = st.alerts ++ [hiTempAlert sid r1.deviceId t1])
  ∧ ((hiTempAlert sid r1.deviceId t1).value = some t1)
  ∧ ((hiTempAlert sid r1.deviceId t1).type = "high_temperature")
  ∧ ((checkThresholds false st sid r2).1.alerts = st.alerts)
  ∧ ((checkThresholds false st sid r3).1.alerts = st.alerts) := by
  refine ⟨?_, rfl, rfl, ?_, ?_⟩
  · simp only [checkThresholds, h1t]
    rw [if_pos ⟨h1nz, h1gt⟩, generateAlert_alerts]
  · simp only [checkThresholds, h2t]
    rw [if_neg (fun hc => absurd hc.2 (not_lt.mpr h2le))]
  · simp only [checkThresholds, h3t]

/-- Claim C4 witness: the spec scenario with the default threshold set
(max-temperature 85): temperature 90 alerts with value 90, temperature 85
does not, a reading without temperature does not. -/
theorem c4_high_temperature_alert_witness :
    ((DeviceReading.mk 1 "s" 0 (ReadingData.mk none (some 90) none none none none)).data.temperature = some 90)
  ∧ ((90 : Int) ≠ 0)
  ∧ ((90 : Int) > (initState.thresholds 1).maxTemperature)
  ∧ ((DeviceReading.mk 1 "s" 0 (ReadingData.mk none (some 85) none none none none)).data.temperature = some 85)
  ∧ ((85 : Int) ≤ (initState.thresholds 1).maxTemperature)
  ∧ ((DeviceReading.mk 1 "s" 0 (ReadingData.mk none none none none none none)).data.temperature = none)
  ∧ (((checkThresholds false initState "s" (DeviceReading.mk 1 "s" 0 (ReadingData.mk none (some 90) none none none none))).1.alerts
      = initState.alerts ++ [hiTempAlert "s" 1 90])
  ∧ ((hiTempAlert "s" 1 90).value = some 90)
  ∧ ((hiTempAlert "s" 1 90).type = "high_temperature")
  ∧ ((checkThresholds false initState "s" (DeviceReading.mk 1 "s" 0 (ReadingData.mk none (some 85) none none none none))).1.alerts
      = initState.alerts)
  ∧ ((checkThresholds false initState "s" (DeviceReading.mk 1 "s" 0 (ReadingData.mk none none none none none none))).1.alerts
      = initState.alerts)) :=
  ⟨rfl, by decide, by decide, rfl, by decide, rfl,
   c4_high_temperature_alert initState "s"
     (DeviceReading.mk 1 "s" 0 (ReadingData.mk none (some 90) none none none none))
     (DeviceReading.mk 1 "s" 0 (ReadingData.mk none (some 85) none none none none))
     (DeviceReading.mk 1 "s" 0 (ReadingData.mk none none none none none none))
     90 85 rfl (by decide) (by decide) rfl (by decide) rfl⟩

/-- Claim C4 counterexample: a measured temperature of 0 is strictly above
an effective max-temperature threshold of -1, yet no alert is produced,
because the truthiness guard treats the zero reading as absent; the claim
requires exactly one high_temperature alert here. -/
theorem c4_zero_temperature_counterexample :
    ((0 : Int) > (-1 : Int))
  ∧ ((checkThresholds false
        { initState with thresholds := fun _ => Thresholds.mk (-1) 50 3500 } "s"
        (DeviceReading.mk 1 "s" 0 (ReadingData.mk none (some 0) none none none none))).1.alerts
      = []) := by
  constructor <;> decide

/-! ## Claim C5 -/

theorem hsetMetrics_readings (st : CloudState) (sid : String) (d : Nat) (v : Option ReadingRec) :
    (hsetMetrics st sid d v).readings = st.readings := rfl

theorem checkThresholds_readings (nf : Bool) (st : CloudState) (sid : String)
    (r : DeviceReading) :
    (checkThresholds nf st sid r).1.readings = st.readings := by
  cases ht : r.data.temperature with
  | none => simp [checkThresholds, ht]
  | some t =>
    simp only [checkThresholds, ht]
    by_cases hc : t ≠ 0 ∧ t > (st.thresholds r.deviceId).maxTemperature
    · rw [if_pos hc, generateAlert_readings]
    · rw [if_neg hc]

/-- Claim C5 (amended): the reading-ingestion path is protected — its catch
only logs, so processDeviceReading completes for every input, failing
notification path or not, and the reading row is persisted regardless.  The
status-ingestion path is not protected: the catch of processDeviceStatuses
rethrows, so a notification failure while raising the device-error alert of
a batch entry makes the whole call fail, skipping the remaining entries and
the site-status update — though the writes already applied, including the
alert row itself, are not rolled back. -/
theorem c5_ingestion_isolation (nf : Bool) (st : CloudState) (sid : String)
    (r : DeviceReading) (now : Nat) (m : DeviceStatusMsg) (rest : List DeviceStatusMsg)
    (hm : m.status = DevStat.error) :
    ((processDeviceReading nf st sid r).2 = false)
  ∧ ((processDeviceReading nf st sid r).1.readings = st.readings ++
      [ReadingRec.mk sid r.deviceId r.timestamp r.data])
  ∧ ((processDeviceStatuses true st sid now (m :: rest)).2 = true)
  ∧ ((processDeviceStatuses true st sid now (m :: rest)).1.siteHash sid = st.siteHash sid)
  ∧ ((processDeviceStatuses true st sid now (m :: rest)).1.alerts
      = st.alerts ++ [devErrAlert sid m]) := by
  refine ⟨rfl, ?_, ?_, ?_, ?_⟩
  · simp only [processDeviceReading, updateMetrics, checkThresholds_readings,
      hsetMetrics_readings]
  · simp [processDeviceStatuses, processBatchLoop, hm, generateAlert_snd]
  · simp only [processDeviceStatuses, processBatchLoop, hm, if_true, generateAlert_snd,
      if_pos]
    rw [generateAlert_siteHash]
    rfl
  · simp only [processDeviceStatuses, processBatchLoop, hm, if_true, generateAlert_snd,
      if_pos]
    rw [generateAlert_alerts]
    rfl

/-- Claim C5 witness: a reading processed under an injected notification
failure still completes and persists; a status batch with an error entry
processed under the same failure throws. -/
theorem c5_ingestion_isolation_witness :
    ((DeviceStatusMsg.mk 1 DevStat.error (some "boom")).status = DevStat.error)
  ∧ (((processDeviceReading true initState "s" (DeviceReading.mk 1 "s" 3 (ReadingData.mk none (some 90) none none none none))).2 = false)
  ∧ ((processDeviceReading true initState "s" (DeviceReading.mk 1 "s" 3 (ReadingData.mk none (some 90) none none none none))).1.readings
      = initState.readings ++ [ReadingRec.mk "s" 1 3 (ReadingData.mk none (some 90) none none none none)])
  ∧ ((processDeviceStatuses true initState "s" 0
      [DeviceStatusMsg.mk 1 DevStat.error (some "boom"), DeviceStatusMsg.mk 2 DevStat.online none]).2 = true)
  ∧ ((processDeviceStatuses true initState "s" 0
      [DeviceStatusMsg.mk 1 DevStat.error (some "boom"), DeviceStatusMsg.mk 2 DevStat.online none]).1.siteHash "s"
      = initState.siteHash "s")
  ∧ ((processDeviceStatuses true initState "s" 0
      [DeviceStatusMsg.mk 1 DevStat.error (some "boom"), DeviceStatusMsg.mk 2 DevStat.online none]).1.alerts
      = initState.alerts ++ [devErrAlert "s" (DeviceStatusMsg.mk 1 DevStat.error (some "boom"))])) :=
  ⟨by decide,
   c5_ingestion_isolation true initState "s"
     (DeviceReading.mk 1 "s" 3 (ReadingData.mk none (some 90) none none none none)) 0
     (DeviceStatusMsg.mk 1 DevStat.error (some "boom"))
     [DeviceStatusMsg.mk 2 DevStat.online none] (by decide)⟩

/-- Claim C5 counterexample: with a failing notification write, ingesting a
status batch containing an error entry makes the processDeviceStatuses call
itself throw, so an alert/notification failure does fail the originating
status ingestion, contrary to the claim. -/
theorem c5_status_ingestion_fails_counterexample :
    (processDeviceStatuses true initState "s" 0
      [DeviceStatusMsg.mk 1 DevStat.error (some "boom")]).2 = true := by
  decide

/-! ## Claim C7 -/

/-- Claim C7: on the edge, a command addressed to a device id outside the
configured device set throws the device-not-found error before any register
access, performing no register write and emitting no event; a command whose
action is none of restart, updateConfig, shutdown performs no register
write either — its unknown-command error is caught by the command boundary
and surfaces as a single commandError event carrying the
unsupported-operation failure, per the fault-isolated design of the control
loop. -/
theorem c7_edge_command_validation (c1 c2 : EdgeCommandMsg)
    (h1 : c1.deviceId ∉ configDeviceIds)
    (h2 : c2.deviceId ∈ configDeviceIds)
    (h3 : c2.data.action ∉ ["restart", "updateConfig", "shutdown"]) :
    (handleCommand c1 = EdgeResult.mk [] [] (some (EdgeErr.deviceNotFound c1.deviceId)))
  ∧ (handleCommand c2 = EdgeResult.mk []
      [EdgeEvent.commandError c2.deviceId c2.data (EdgeErr.unsupportedOperation c2.data.action)]
      none) := by
  simp only [List.mem_cons, List.not_mem_nil, or_false, not_or] at h3
  obtain ⟨h31, h32, h33⟩ := h3
  constructor
  · simp [handleCommand, h1]
  · simp [handleCommand, h2, execSwitch, h31, h32, h33]

/-- Claim C7 witness: device 99 is not configured; device 1 is, and the
action "fly" is not a supported operation. -/
theorem c7_edge_command_validation_witness :
    ((EdgeCommandMsg.mk 99 (EdgeCommandData.mk "restart" none none)).deviceId ∉ configDeviceIds)
  ∧ ((EdgeCommandMsg.mk 1 (EdgeCommandData.mk "fly" none none)).deviceId ∈ configDeviceIds)
  ∧ ((EdgeCommandMsg.mk 1 (EdgeCommandData.mk "fly" none none)).data.action ∉
      ["restart", "updateConfig", "shutdown"])
  ∧ ((handleCommand (EdgeCommandMsg.mk 99 (EdgeCommandData.mk "restart" none none))
      = EdgeResult.mk [] [] (some (EdgeErr.deviceNotFound 99)))
  ∧ (handleCommand (EdgeCommandMsg.mk 1 (EdgeCommandData.mk "fly" none none))
      = EdgeResult.mk []
        [EdgeEvent.commandError 1 (EdgeCommandData.mk "fly" none none)
          (EdgeErr.unsupportedOperation "fly")] none)) :=
  ⟨by decide, by decide, by decide,
   c7_edge_command_validation
     (EdgeCommandMsg.mk 99 (EdgeCommandData.mk "restart" none none))
     (EdgeCommandMsg.mk 1 (EdgeCommandData.mk "fly" none none))
     (by decide) (by decide) (by decide)⟩

/-! ## Claim C9 -/

/-- Claim C9: after N consecutive disconnects the uplink issues exactly N
reconnection attempts, each scheduled with the fixed 5000 ms backoff, and
the close handler schedules a further attempt unconditionally — its
behavior does not depend on how many attempts have already happened, so
there is no maximum retry count and the loop never stops retrying. -/
theorem c9_reconnect_loop (n : Nat) (s : UplinkState) :
    ((runDisconnects n s).connectAttempts = s.connectAttempts + n)
  ∧ ((runDisconnects n s).scheduledDelays
      = s.scheduledDelays ++ List.replicate n RECONNECT_DELAY_MS)
  ∧ (∀ s' : UplinkState,
      (onUplinkClose s').scheduledDelays = s'.scheduledDelays ++ [RECONNECT_DELAY_MS]) := by
  refine ⟨?_, ?_, fun s' => rfl⟩
  · induction n generalizing s with
    | zero => simp [runDisconnects]
    | succ k ih =>
      rw [runDisconnects, ih]
      simp [disconnectRound, fireScheduledReconnect, setupCloudConnection, onUplinkClose]
      omega
  · induction n generalizing s with
    | zero => simp [runDisconnects]
    | succ k ih =>
      rw [runDisconnects, ih]
      simp [disconnectRound, fireScheduledReconnect, setupCloudConnection, onUplinkClose,
        List.replicate_succ]

/-- Claim C8: the Connection Registry keeps at most one channel per site (the
siteConnections map is keyed by site id with a single slot, modelled by the
Option-valued `conns`), and a second register call for the same site
replaces the first: after registering c1 a lookup yields c1, and after the
second register of c2 a lookup yields c2, not c1 queued behind it. -/
theorem c8_register_supersedes (st : CloudState) (sid : String) (c1 c2 : Nat) :
    ((handleSiteConnection st sid c1).conns sid = some c1)
  ∧ ((handleSiteConnection (handleSiteConnection st sid c1) sid c2).conns sid = some c2) := by
  constructor <;> simp [handleSiteConnection]

/-- Claim C6: a site-channel close event removes the channel from the
registry, forces the stored site status to offline with the close time, and
appends exactly one alert, of type site_offline and severity high; the call
itself completes (no throw on the happy path of the stores). -/
theorem c6_close_forces_offline (st : CloudState) (sid : String) (now : Nat) :
    ((onSiteClose false st sid now).1.conns sid = none)
  ∧ ((onSiteClose false st sid now).1.siteHash sid
      = { status := some SiteStat.offline, lastUpdate := some now })
  ∧ ((onSiteClose false st sid now).1.alerts = st.alerts ++ [siteOfflineAlert sid])
  ∧ ((siteOfflineAlert sid).type = "site_offline")
  ∧ ((siteOfflineAlert sid).severity = some Severity.high)
  ∧ ((onSiteClose false st sid now).2 = false) := by
  refine ⟨?_, ?_, ?_, rfl, rfl, ?_⟩ <;>
    simp [onSiteClose, updateSiteStatus, hsetSite, dbUpdateSite, generateAlert,
      sendNotifications, siteOfflineAlert]

/-- Claim C10: after a site channel is superseded by a newer one, the close
handler of the superseded channel still removes the site entry and forces
the site offline, because the close callback is keyed only by the site id
(it captures site.id and never compares the closing socket with the
registered one, which is why `onSiteClose` takes no channel argument).  So
the newer, still-live channel c2 is deregistered and a site_offline alert
raised when the stale channel c1 closes. -/
theorem c10_stale_close_drops_live_channel (st : CloudState) (sid : String)
    (c1 c2 : Nat) (now : Nat) (hne : c1 ≠ c2) :
    ((handleSiteConnection (handleSiteConnection st sid c1) sid c2).conns sid = some c2)
  ∧ ((handleSiteConnection (handleSiteConnection st sid c1) sid c2).conns sid ≠ some c1)
  ∧ ((onSiteClose false (handleSiteConnection (handleSiteConnection st sid c1) sid c2) sid now).1.conns sid
      = none)
  ∧ ((onSiteClose false (handleSiteConnection (handleSiteConnection st sid c1) sid c2) sid now).1.siteHash sid
      = { status := some SiteStat.offline, lastUpdate := some now })
  ∧ ((onSiteClose false (handleSiteConnection (handleSiteConnection st sid c1) sid c2) sid now).1.alerts
      = (handleSiteConnection (handleSiteConnection st sid c1) sid c2).alerts ++ [siteOfflineAlert sid]) := by
  refine ⟨?_, ?_, ?_, ?_, ?_⟩ <;>
    simp [handleSiteConnection, onSiteClose, updateSiteStatus, hsetSite, dbUpdateSite,
      generateAlert, sendNotifications, Ne.symm hne]

/-- Claim C10 witness: the scenario at a concrete state with channels 1 and 2. -/
theorem c10_stale_close_drops_live_channel_witness :
    (1 ≠ 2)
  ∧ (((handleSiteConnection (handleSiteConnection initState "s" 1) "s" 2).conns "s" = some 2)
  ∧ ((handleSiteConnection (handleSiteConnection initState "s" 1) "s" 2).conns "s" ≠ some 1)
  ∧ ((onSiteClose false (handleSiteConnection (handleSiteConnection initState "s" 1) "s" 2) "s" 5).1.conns "s"
      = none)
  ∧ ((onSiteClose false (handleSiteConnection (handleSiteConnection initState "s" 1) "s" 2) "s" 5).1.siteHash "s"
      = { status := some SiteStat.offline, lastUpdate := some 5 })
  ∧ ((onSiteClose false (handleSiteConnection (handleSiteConnection initState "s" 1) "s" 2) "s" 5).1.alerts
      = (handleSiteConnection (handleSiteConnection initState "s" 1) "s" 2).alerts ++ [siteOfflineAlert "s"])) :=
  ⟨by decide, c10_stale_close_drops_live_channel initState "s" 1 2 5 (by decide)⟩

/-- Claim C3: dispatching a command to a site with no registered channel
fails with the site-not-connected error, leaving the state untouched (so no
outbound message and no CommandLog row), while dispatching to a connected
site succeeds, pushes exactly one command message on that site channel and
appends exactly one CommandLog row with status "sent". -/
theorem c3_dispatch_requires_channel (st1 st2 : CloudState) (sid : String)
    (cmd : Command) (ch : Nat) (h1 : st1.conns sid = none) (h2 : st2.conns sid = some ch) :
    (sendCommand st1 sid cmd = (st1, some SendErr.siteNotConnected))
  ∧ ((sendCommand st2 sid cmd).2 = none)
  ∧ ((sendCommand st2 sid cmd).1.sent = st2.sent ++ [(ch, cmd)])
  ∧ ((sendCommand st2 sid cmd).1.commandLogs = st2.commandLogs ++
      [CommandLog.mk sid cmd.deviceId cmd.type cmd.parameters "sent"]) := by
  refine ⟨?_, ?_, ?_, ?_⟩ <;> simp [sendCommand, h1, h2]

/-- Claim C3 witness: a restart command against the empty registry and
against a registry holding channel 7 for site "s". -/
theorem c3_dispatch_requires_channel_witness :
    (initState.conns "s" = none)
  ∧ ((handleSiteConnection initState "s" 7).conns "s" = some 7)
  ∧ ((sendCommand initState "s" (Command.mk "restart" 7 "s" none)
      = (initState, some SendErr.siteNotConnected))
  ∧ ((sendCommand (handleSiteConnection initState "s" 7) "s" (Command.mk "restart" 7 "s" none)).2 = none)
  ∧ ((sendCommand (handleSiteConnection initState "s" 7) "s" (Command.mk "restart" 7 "s" none)).1.sent
      = (handleSiteConnection initState "s" 7).sent ++ [(7, Command.mk "restart" 7 "s" none)])
  ∧ ((sendCommand (handleSiteConnection initState "s" 7) "s" (Command.mk "restart" 7 "s" none)).1.commandLogs
      = (handleSiteConnection initState "s" 7).commandLogs ++
        [CommandLog.mk "s" 7 "restart" none "sent"])) :=
  ⟨rfl, by decide,
   c3_dispatch_requires_channel initState (handleSiteConnection initState "s" 7) "s"
     (Command.mk "restart" 7 "s" none) 7 rfl (by decide)⟩

end Nef
